import Mathlib

/-!
Shallow embedding of the Smart-Sadak-Sathi frontend (src/index.tsx).

The embedded pieces are the pure computational cores the specification
talks about: the CSV-to-record parser of `GoogleSheetAPI._csvToJson`, the
dashboard filter effect, the simulated user API (`login`, `changePassword`),
the OTP / password form handlers, and the `AppView` union type.

JavaScript objects produced by `_csvToJson` are modelled as finite partial
maps `String → Option String` built by repeated key assignment
(last write wins, as in JS). JavaScript string operations are modelled on
`List Char` (`String.data`) so that everything reduces in the kernel:
`split` on a one-character separator, `trim`, `replace(/"/g,'')`,
`toLowerCase`, `includes`.
-/

namespace SadakSathi

/-- JS `str.split(sep)` for a one-character separator, on char lists.
`split` always yields at least one (possibly empty) chunk. -/
def splitOnChar (sep : Char) : List Char → List (List Char)
  | [] => [[]]
  | a :: as =>
    let r := splitOnChar sep as
    if a == sep then [] :: r
    else
      match r with
      | [] => [[a]]
      | g :: gs => (a :: g) :: gs

/-- JS `str.trim()`: drop leading and trailing whitespace. -/
def trimChars (cs : List Char) : List Char :=
  ((cs.dropWhile Char.isWhitespace).reverse.dropWhile Char.isWhitespace).reverse

/-- The cell transform of `_csvToJson`: `c.trim().replace(/"/g, '')`
(trim, then delete every double-quote character). -/
def cleanCell (cs : List Char) : String :=
  String.mk ((trimChars cs).filter (fun c => c != '"'))

/-- One line split on commas with each cell cleaned:
`line.split(',').map(c => c.trim().replace(/"/g, ''))`. -/
def rowCells (line : List Char) : List String :=
  (splitOnChar ',' line).map cleanCell

/-- `csv.split('\n').filter(line => line.trim() !== '')`:
the non-blank lines of the input. -/
def csvLines (csv : String) : List (List Char) :=
  (splitOnChar '\n' csv.data).filter (fun l => !(trimChars l).isEmpty)

/-- One JS object assignment `obj[k] = v` on the partial-map model:
later assignments overwrite earlier ones. -/
def jsSet (o : String → Option String) (kv : String × String) : String → Option String :=
  fun q => if q = kv.1 then some kv.2 else o q

/-- The record built by the inner loop of `_csvToJson`:
`for j in [0, headers.length): obj[headers[j]] = currentLine[j]`.
The guard `currentLine.length >= headers.length` holds at every call site,
so zipping truncates exactly at `headers.length` as the loop does. -/
def mkRecord (headers cells : List String) : String → Option String :=
  (headers.zip cells).foldl jsSet (fun _ => none)

/-- `GoogleSheetAPI._csvToJson`: header line gives the keys, every further
non-blank line with at least as many cells as headers gives one record;
shorter lines are skipped (`continue`). -/
def csvToJson (csv : String) : List (String → Option String) :=
  if csv = "" then []
  else
    match csvLines csv with
    | [] => []
    | [_] => []
    | hline :: dataLines =>
      let headers := rowCells hline
      dataLines.filterMap (fun line =>
        let cs := rowCells line
        if cs.length < headers.length then none
        else some (mkRecord headers cs))

/-- The header keys of a CSV input: the cleaned cells of its first
non-blank line (`lines[0].split(',').map(h => h.trim().replace(/"/g,''))`). -/
def csvHeaders (csv : String) : List String :=
  match csvLines csv with
  | [] => []
  | h :: _ => rowCells h

/-! ### The dashboard filter effect (`DashboardPage`, lines 699-708) -/

/-- The two fields of a road/bridge record the filter effect reads.
`Status` is `none` when the CSV row had no `Status` column (JS `undefined`). -/
structure RoadRecord where
  Status : Option String
  name : String
deriving DecidableEq, Repr

/-- JS `s.toLowerCase().replace(/ /g, '-')`. -/
def statusKey (s : String) : String :=
  String.mk ((s.data.map Char.toLower).map (fun c => if c == ' ' then '-' else c))

/-- The status predicate of the filter effect:
`r.Status && r.Status.toLowerCase().replace(/ /g, '-') === statusFilter`.
A missing or empty `Status` is falsy, so such records never pass. -/
def statusMatch (r : RoadRecord) (f : String) : Bool :=
  match r.Status with
  | none => false
  | some s => (!(s == "")) && (statusKey s == f)

/-- JS `needle` is a contiguous substring starting at the front of `hay`. -/
def startsWithChars : List Char → List Char → Bool
  | [], _ => true
  | _ :: _, [] => false
  | a :: as, b :: bs => a == b && startsWithChars as bs

/-- JS `hay.includes(needle)`: contiguous substring anywhere. -/
def containsChars (n : List Char) : List Char → Bool
  | [] => n.isEmpty
  | b :: bs => startsWithChars n (b :: bs) || containsChars n bs

/-- The search predicate of the filter effect:
`r.name.toLowerCase().includes(searchTerm.toLowerCase())`. -/
def nameMatch (r : RoadRecord) (term : String) : Bool :=
  containsChars (term.data.map Char.toLower) (r.name.data.map Char.toLower)

/-- The filter effect of `DashboardPage`: start from `allData`, filter by
status when `statusFilter !== 'all'`, then by name when `searchTerm` is
truthy (non-empty). The result is what `setFilteredData` receives. -/
def applyFilters (allData : List RoadRecord) (statusFilter searchTerm : String) :
    List RoadRecord :=
  let d1 := if statusFilter ≠ "all" then allData.filter (fun r => statusMatch r statusFilter)
            else allData
  if searchTerm ≠ "" then d1.filter (fun r => nameMatch r searchTerm) else d1

/-- The status predicate as the specification words it ("records whose
Status, lowercased with spaces replaced by hyphens, equals statusFilter"),
without the truthiness test the code performs. Used to compare the claim
with `statusMatch`. -/
def specStatusMatch (r : RoadRecord) (f : String) : Prop :=
  ∃ s, r.Status = some s ∧ statusKey s = f

/-! ### The simulated user API (`SimulatedUserAPI`) -/

/-- `type UserRole = 'guest' | 'admin' | 'superadmin' | 'user'`. -/
inductive UserRole where
  | guest
  | admin
  | superadmin
  | user
deriving DecidableEq, Repr

/-- One entry of `SimulatedUserAPI._users`. -/
structure User where
  email : String
  password : String
  role : UserRole
deriving DecidableEq, Repr

/-- The initial contents of `SimulatedUserAPI._users`. -/
def initialUsers : List User :=
  [ ⟨"superadmin@app.com", "password123", .superadmin⟩,
    ⟨"admin@app.com", "password123", .admin⟩,
    ⟨"user@app.com", "password123", .user⟩ ]

/-- The `{success: true, value} | {success: false, error}` result shape of
the simulated API. -/
inductive ApiResult (α : Type) where
  | success (value : α)
  | failure (error : String)
deriving DecidableEq, Repr

/-- `SimulatedUserAPI.login`: first user matching both email and password,
`{success:true, user:{email, role}}` on a hit, the fixed error otherwise.
The store is a parameter because `changePassword` mutates it. -/
def login (users : List User) (email password : String) :
    ApiResult (String × UserRole) :=
  match users.find? (fun u => u.email == email && u.password == password) with
  | some u => .success (u.email, u.role)
  | none => .failure "Invalid email or password."

/-- `SimulatedUserAPI.changePassword`: find the first user by email
(`findIndex`); fail without touching the store when there is none or when
the stored password differs from `currentPassword`; otherwise overwrite
exactly that entry's password. Returns the API result and the new store. -/
def changePassword : List User → String → String → String → ApiResult Unit × List User
  | [], _, _, _ => (.failure "User not found.", [])
  | u :: rest, email, currentPassword, newPassword =>
    if u.email = email then
      if u.password ≠ currentPassword then
        (.failure "Incorrect current password.", u :: rest)
      else
        (.success (), { u with password := newPassword } :: rest)
    else
      let r := changePassword rest email currentPassword newPassword
      (r.1, u :: r.2)

/-! ### The login-screen and settings form handlers -/

/-- The state `handleOtpVerification` writes: `isOtpVerified` and `error`. -/
structure OtpState where
  isOtpVerified : Bool
  error : String
deriving DecidableEq, Repr

/-- `LoginScreen.handleOtpVerification`: clear the error, then verify
exactly the literal `'123456'`; any other string sets the demo error and
does not touch `isOtpVerified`. -/
def handleOtpVerification (otp : String) (isOtpVerified : Bool) : OtpState :=
  if otp = "123456" then ⟨true, ""⟩
  else ⟨isOtpVerified, "Invalid OTP code. Please use 123456 for this demo."⟩

/-- What a password form handler does before any network call: either an
early return with an error message, or a call into `SimulatedUserAPI`
carrying the arguments of that call. -/
inductive FormOutcome (α : Type) where
  | rejected (message : String)
  | callBackend (args : α)
deriving DecidableEq, Repr

/-- `SuperAdminSettings.handlePasswordChange` up to the backend call:
mismatch check first, then the length check, then
`changePassword(userEmail, currentPassword, newPassword)`. -/
def handlePasswordChange (userEmail currentPassword newPassword confirmPassword : String) :
    FormOutcome (String × String × String) :=
  if newPassword ≠ confirmPassword then .rejected "New passwords do not match."
  else if newPassword.length < 8 then .rejected "Password must be at least 8 characters."
  else .callBackend (userEmail, currentPassword, newPassword)

/-- `LoginScreen.handleFinalPasswordReset` up to the backend call:
mismatch check first, then the length check, then
`resetPassword(email, newPassword)`. -/
def handleFinalPasswordReset (email newPassword confirmPassword : String) :
    FormOutcome (String × String) :=
  if newPassword ≠ confirmPassword then .rejected "Passwords do not match."
  else if newPassword.length < 8 then .rejected "Password must be at least 8 characters long."
  else .callBackend (email, newPassword)

/-! ### The UI view selector -/

/-- `type AppView = 'dashboard' | 'users' | 'analytics' | 'logs' | 'route-planner'`,
the type of the `activeView` state driving `DashboardPage.renderContent`. -/
inductive AppView where
  | dashboard
  | users
  | analytics
  | logs
  | routePlanner
deriving DecidableEq, Fintype, Repr

/-! ### Helper lemmas about the record builder and the parser -/

theorem foldl_jsSet_eval_of_not_mem (ps : List (String × String))
    (o : String → Option String) (k : String) (h : k ∉ ps.map Prod.fst) :
    ps.foldl jsSet o k = o k := by
  induction ps generalizing o with
  | nil => rfl
  | cons p t ih =>
    simp only [List.map_cons, List.mem_cons, not_or] at h
    rw [List.foldl_cons, ih _ h.2]
    simp [jsSet, h.1]

theorem foldl_jsSet_isSome_iff (ps : List (String × String))
    (o : String → Option String) (k : String) :
    ((ps.foldl jsSet o) k).isSome ↔ ((o k).isSome ∨ k ∈ ps.map Prod.fst) := by
  induction ps generalizing o with
  | nil => simp
  | cons p t ih =>
    rw [List.foldl_cons, ih]
    by_cases hk : k = p.1
    · simp [jsSet, hk]
    · simp [jsSet, hk]

theorem foldl_jsSet_eval_mem (ps : List (String × String))
    (o : String → Option String) (hnd : (ps.map Prod.fst).Nodup) :
    ∀ p ∈ ps, ps.foldl jsSet o p.1 = some p.2 := by
  induction ps generalizing o with
  | nil => intro p hp; cases hp
  | cons q t ih =>
    simp only [List.map_cons, List.nodup_cons] at hnd
    intro p hp
    rcases List.mem_cons.mp hp with rfl | hp
    · rw [List.foldl_cons, foldl_jsSet_eval_of_not_mem _ _ _ hnd.1]
      simp [jsSet]
    · exact List.foldl_cons _ _ ▸ ih _ hnd.2 p hp

theorem zip_map_fst_sublist {α β : Type} (l₁ : List α) (l₂ : List β) :
    ((l₁.zip l₂).map Prod.fst).Sublist l₁ := by
  induction l₁ generalizing l₂ with
  | nil => simp
  | cons a t ih =>
    cases l₂ with
    | nil => simp
    | cons b s => simpa using List.Sublist.cons₂ a (ih s)

theorem mkRecord_isSome_of_mem (headers cells : List String)
    (hlen : headers.length ≤ cells.length) (k : String) (hk : k ∈ headers) :
    (mkRecord headers cells k).isSome := by
  rw [mkRecord, foldl_jsSet_isSome_iff, List.map_fst_zip _ _ hlen]
  exact Or.inr hk

theorem mkRecord_dom_subset (headers cells : List String) (k : String)
    (hk : (mkRecord headers cells k).isSome) : k ∈ headers := by
  rw [mkRecord, foldl_jsSet_isSome_iff] at hk
  rcases hk with h | h
  · simp at h
  · exact (zip_map_fst_sublist headers cells).mem h

theorem mkRecord_eval_of_nodup (headers cells : List String) (hnd : headers.Nodup) :
    ∀ p ∈ headers.zip cells, mkRecord headers cells p.1 = some p.2 :=
  foldl_jsSet_eval_mem _ _ (hnd.sublist (zip_map_fst_sublist headers cells))

theorem csvToJson_eq (csv : String) :
    csvToJson csv = ((csvLines csv).drop 1).filterMap (fun line =>
      if (rowCells line).length < (csvHeaders csv).length then none
      else some (mkRecord (csvHeaders csv) (rowCells line))) := by
  by_cases h0 : csv = ""
  · subst h0; rfl
  · rw [csvToJson, if_neg h0, csvHeaders]
    rcases hL : csvLines csv with _ | ⟨h1, t⟩
    · rfl
    · cases t with
      | nil => rfl
      | cons l2 t2 => rfl

theorem length_filterMap_guard {α β : Type} (l : List α) (p : α → Prop)
    [DecidablePred p] (g : α → β) :
    (l.filterMap (fun a => if p a then none else some (g a))).length =
      (l.filter (fun a => decide ¬ p a)).length := by
  induction l with
  | nil => rfl
  | cons a t ih =>
    by_cases hp : p a <;>
      simp [List.filterMap_cons, List.filter_cons, hp, ih]

theorem mem_csvToJson (csv : String) (r : String → Option String)
    (hr : r ∈ csvToJson csv) :
    ∃ line ∈ (csvLines csv).drop 1,
      (csvHeaders csv).length ≤ (rowCells line).length ∧
      r = mkRecord (csvHeaders csv) (rowCells line) := by
  rw [csvToJson_eq] at hr
  rcases List.mem_filterMap.mp hr with ⟨line, hline, hsome⟩
  by_cases hlt : (rowCells line).length < (csvHeaders csv).length
  · rw [if_pos hlt] at hsome; cases hsome
  · rw [if_neg hlt] at hsome
    exact ⟨line, hline, Nat.le_of_not_lt hlt, (Option.some.injEq _ _ ▸ hsome).symm⟩

/-! ### Claim theorems -/

/-- Claim C1, counterexample: the claim fails when the header line repeats a
name. On `"a,a\n1,2"` the headers are `["a", "a"]`, the single data line has
cells `["1", "2"]`, and the single returned record maps the 0-th header `"a"`
to `"2"` (the last assignment wins), not to the 0-th cell `"1"`. -/
theorem csvToJson_dup_header_cex :
    csvHeaders "a,a\n1,2" = ["a", "a"] ∧
    (csvLines "a,a\n1,2").drop 1 = ["1,2".data] ∧
    rowCells "1,2".data = ["1", "2"] ∧
    ∃ r ∈ csvToJson "a,a\n1,2", r "a" ≠ some "1" := by
  refine ⟨by decide, by decide, by decide,
    mkRecord (csvHeaders "a,a\n1,2") (rowCells "1,2".data), ?_, by decide⟩
  have h : csvToJson "a,a\n1,2" =
      [mkRecord (csvHeaders "a,a\n1,2") (rowCells "1,2".data)] := rfl
  rw [h]
  exact List.mem_singleton.mpr rfl

/-- Claim C1 (amended): for every CSV input with at least two non-blank
lines whose header names are pairwise distinct, every record returned by
`_csvToJson` comes from one data line and maps the j-th header to the j-th
cell of that line (the zip pairs the j-th header with the j-th cell). -/
theorem csvToJson_header_keyed (csv : String)
    (_h2 : 2 ≤ (csvLines csv).length) (hnd : (csvHeaders csv).Nodup) :
    ∀ r ∈ csvToJson csv, ∃ line ∈ (csvLines csv).drop 1,
      (csvHeaders csv).length ≤ (rowCells line).length ∧
      ∀ p ∈ (csvHeaders csv).zip (rowCells line), r p.1 = some p.2 := by
  intro r hr
  rcases mem_csvToJson csv r hr with ⟨line, hline, hlen, rfl⟩
  exact ⟨line, hline, hlen, mkRecord_eval_of_nodup _ _ hnd⟩

/-- Witness for C1: on `"a,b\n1,2"` the hypotheses hold and the conclusion
follows by applying the theorem. -/
theorem csvToJson_header_keyed_witness :
    2 ≤ (csvLines "a,b\n1,2").length ∧ (csvHeaders "a,b\n1,2").Nodup ∧
    ∀ r ∈ csvToJson "a,b\n1,2", ∃ line ∈ (csvLines "a,b\n1,2").drop 1,
      (csvHeaders "a,b\n1,2").length ≤ (rowCells line).length ∧
      ∀ p ∈ (csvHeaders "a,b\n1,2").zip (rowCells line), r p.1 = some p.2 :=
  ⟨by decide, by decide, csvToJson_header_keyed "a,b\n1,2" (by decide) (by decide)⟩

/-- Claim C8: on the empty string, or when the non-blank lines number fewer
than two, `_csvToJson` returns the empty list rather than failing. -/
theorem csvToJson_degenerate (csv : String)
    (h : csv = "" ∨ (csvLines csv).length < 2) : csvToJson csv = [] := by
  rcases h with rfl | h
  · rfl
  · rw [csvToJson_eq]
    rcases hL : csvLines csv with _ | ⟨a, t⟩
    · rfl
    · cases t with
      | nil => rfl
      | cons b t2 =>
        rw [hL] at h
        simp at h
        omega

/-- Witness for C8: `"a,b"` has a single non-blank line and parses to `[]`. -/
theorem csvToJson_degenerate_witness :
    (csvLines "a,b").length < 2 ∧ csvToJson "a,b" = [] :=
  ⟨by decide, csvToJson_degenerate "a,b" (Or.inr (by decide))⟩

/-- Claim C9: data lines with fewer cells than the header line contribute
nothing (the record count equals the count of data lines with enough cells);
every returned record has a value for every header key, and only header keys
are ever present (extra cells are discarded, never added as keys). -/
theorem csvToJson_skips_short_rows (csv : String) :
    (csvToJson csv).length =
      (((csvLines csv).drop 1).filter
        (fun line => decide ((csvHeaders csv).length ≤ (rowCells line).length))).length ∧
    (∀ r ∈ csvToJson csv, ∀ k ∈ csvHeaders csv, (r k).isSome) ∧
    (∀ r ∈ csvToJson csv, ∀ k, (r k).isSome → k ∈ csvHeaders csv) := by
  refine ⟨?_, ?_, ?_⟩
  · rw [csvToJson_eq, length_filterMap_guard]
    have hpred : ∀ line ∈ (csvLines csv).drop 1,
        (decide ¬ (rowCells line).length < (csvHeaders csv).length) =
          (decide ((csvHeaders csv).length ≤ (rowCells line).length)) := by
      intro line _
      simp [Nat.not_lt]
    rw [List.filter_congr hpred]
  · intro r hr k hk
    rcases mem_csvToJson csv r hr with ⟨line, _, hlen, rfl⟩
    exact mkRecord_isSome_of_mem _ _ hlen _ hk
  · intro r hr k hk
    rcases mem_csvToJson csv r hr with ⟨line, _, _, rfl⟩
    exact mkRecord_dom_subset _ _ _ hk

/-- Witness for C9: on `"a,b\nx\n1,2,3"` the short line `"x"` is skipped and
the record count is the count of sufficiently long data lines, by applying
the theorem at that input. -/
theorem csvToJson_skips_short_rows_witness :
    (csvToJson "a,b\nx\n1,2,3").length =
      (((csvLines "a,b\nx\n1,2,3").drop 1).filter
        (fun line =>
          decide ((csvHeaders "a,b\nx\n1,2,3").length ≤ (rowCells line).length))).length :=
  (csvToJson_skips_short_rows "a,b\nx\n1,2,3").1

/-- Claim C2, counterexample: the claim fails for a record whose `Status` is
the empty string when `statusFilter` is the empty string (and not `'all'`).
The spec-side predicate (`Status` lowercased with spaces replaced by hyphens
equals `statusFilter`) holds for that record, so the claim puts it in
`filteredData`; the code's truthiness test on `r.Status` drops it. -/
theorem applyFilters_empty_status_cex :
    ("" : String) ≠ "all" ∧
    specStatusMatch ⟨some "", "x"⟩ "" ∧
    (⟨some "", "x"⟩ : RoadRecord) ∈ ([⟨some "", "x"⟩] : List RoadRecord) ∧
    applyFilters [⟨some "", "x"⟩] "" "" = [] :=
  ⟨by decide, ⟨"", rfl, rfl⟩, List.mem_singleton.mpr rfl, by decide⟩

/-- Claim C2 (amended): `filteredData` is the pure function `applyFilters` of
`(allData, statusFilter, searchTerm)`; it is an order-preserving sublist of
`allData` containing exactly the records that pass the code's status test
(`Status` present, non-empty, and equal to `statusFilter` after lowercasing
and space-to-hyphen replacement) when `statusFilter ≠ 'all'`, and the code's
case-insensitive name-substring test when `searchTerm` is non-empty; with
`statusFilter = 'all'` and empty `searchTerm` it equals `allData`. -/
theorem applyFilters_spec (allData : List RoadRecord) (statusFilter searchTerm : String) :
    (applyFilters allData statusFilter searchTerm).Sublist allData ∧
    (∀ r, r ∈ applyFilters allData statusFilter searchTerm ↔
      r ∈ allData ∧ (statusFilter ≠ "all" → statusMatch r statusFilter = true) ∧
        (searchTerm ≠ "" → nameMatch r searchTerm = true)) ∧
    (statusFilter = "all" → searchTerm = "" →
      applyFilters allData statusFilter searchTerm = allData) := by
  have key : applyFilters allData statusFilter searchTerm =
      if searchTerm ≠ "" then
        (if statusFilter ≠ "all" then
            allData.filter (fun r => statusMatch r statusFilter)
          else allData).filter (fun r => nameMatch r searchTerm)
      else
        (if statusFilter ≠ "all" then
            allData.filter (fun r => statusMatch r statusFilter)
          else allData) := rfl
  rw [key]
  by_cases hf : statusFilter = "all" <;> by_cases hs : searchTerm = "" <;>
    simp [hf, hs, List.mem_filter, and_assoc, List.filter_sublist,
      (List.filter_sublist _).trans (List.filter_sublist _)]
  exact fun r _ => and_comm

/-- Witness for C2: applying the theorem at a concrete store shows the
identity at `statusFilter = 'all'`, `searchTerm = ''`. -/
theorem applyFilters_spec_witness :
    applyFilters [⟨some "Blocked", "Araniko"⟩] "all" "" = [⟨some "Blocked", "Araniko"⟩] :=
  (applyFilters_spec [⟨some "Blocked", "Araniko"⟩] "all" "").2.2 rfl rfl

/-- Claim C3: `login` succeeds with `{email, role}` exactly when some stored
user has that email and that password, and otherwise fails with the fixed
error `'Invalid email or password.'`. -/
theorem login_spec (users : List User) (email password : String) :
    ((∃ u ∈ users, u.email = email ∧ u.password = password) →
      ∃ role, login users email password = .success (email, role) ∧
        ∃ u ∈ users, u.email = email ∧ u.password = password ∧ u.role = role) ∧
    ((¬ ∃ u ∈ users, u.email = email ∧ u.password = password) →
      login users email password = .failure "Invalid email or password.") := by
  constructor
  · intro hex
    have hsome : (users.find? (fun u => u.email == email && u.password == password)).isSome := by
      rw [List.find?_isSome]
      rcases hex with ⟨u, hu, he, hp⟩
      exact ⟨u, hu, by simp [he, hp]⟩
    rcases Option.isSome_iff_exists.mp hsome with ⟨u, hfind⟩
    have hu := List.find?_some hfind
    simp only [Bool.and_eq_true, beq_iff_eq] at hu
    have hmem := List.mem_of_find?_eq_some hfind
    refine ⟨u.role, ?_, u, hmem, hu.1, hu.2, rfl⟩
    rw [login, hfind]
    simp [hu.1]
  · intro hnex
    have hnone : users.find? (fun u => u.email == email && u.password == password) = none := by
      rw [List.find?_eq_none]
      intro u hu hp
      simp only [Bool.and_eq_true, beq_iff_eq] at hp
      exact hnex ⟨u, hu, hp.1, hp.2⟩
    rw [login, hnone]

/-- Witness for C3: a concrete miss and a concrete hit on the initial store,
both by applying the theorem. -/
theorem login_spec_witness :
    login initialUsers "nobody@app.com" "pw" = .failure "Invalid email or password." :=
  (login_spec initialUsers "nobody@app.com" "pw").2 (by decide)

/-- Claim C4, counterexample: the type of the `activeView` state does not
have exactly four values. -/
theorem appView_card_ne_four : Fintype.card AppView ≠ 4 := by decide

/-- Claim C4 (amended): the UI view selector type `AppView` has exactly five
possible values (`dashboard`, `users`, `analytics`, `logs`, `route-planner`). -/
theorem appView_card_eq_five : Fintype.card AppView = 5 := by decide

/-- Claim C5: OTP verification succeeds, marking the OTP verified with no
error, exactly on the literal `'123456'`; any other string yields the demo
error message and leaves the OTP unverified. -/
theorem otp_verification_spec (otp : String) :
    ((handleOtpVerification otp false).isOtpVerified = true ↔ otp = "123456") ∧
    (otp = "123456" → handleOtpVerification otp false = ⟨true, ""⟩) ∧
    (otp ≠ "123456" →
      handleOtpVerification otp false =
        ⟨false, "Invalid OTP code. Please use 123456 for this demo."⟩) := by
  unfold handleOtpVerification
  by_cases h : otp = "123456" <;> simp [h]

/-- Witness for C5: the theorem applied at a wrong code. -/
theorem otp_verification_spec_witness :
    handleOtpVerification "000000" false =
      ⟨false, "Invalid OTP code. Please use 123456 for this demo."⟩ :=
  (otp_verification_spec "000000").2.2 (by decide)

/-- Claim C6, counterexample: a submission whose new password is shorter
than 8 characters but differs from the confirmation is rejected with the
mismatch error, not with the claimed length error (the mismatch check runs
first). -/
theorem short_password_message_cex :
    ("abc" : String).length < 8 ∧
    handlePasswordChange "superadmin@app.com" "password123" "abc" "xyz" =
      .rejected "New passwords do not match." ∧
    handleFinalPasswordReset "admin@app.com" "abc" "xyz" =
      .rejected "Passwords do not match." ∧
    ("New passwords do not match." : String) ≠ "Password must be at least 8 characters." ∧
    ("Passwords do not match." : String) ≠ "Password must be at least 8 characters long." := by
  decide

/-- Claim C6 (amended): every submission whose new password is shorter than
8 characters is rejected before any backend call; when the confirmation
field matches, the rejection carries exactly the length error message of the
respective handler. -/
theorem short_password_rejected
    (userEmail currentPassword newPassword confirmPassword : String)
    (h : newPassword.length < 8) :
    (∃ m, handlePasswordChange userEmail currentPassword newPassword confirmPassword =
      .rejected m) ∧
    (∃ m, handleFinalPasswordReset userEmail newPassword confirmPassword = .rejected m) ∧
    (newPassword = confirmPassword →
      handlePasswordChange userEmail currentPassword newPassword confirmPassword =
        .rejected "Password must be at least 8 characters." ∧
      handleFinalPasswordReset userEmail newPassword confirmPassword =
        .rejected "Password must be at least 8 characters long.") := by
  unfold handlePasswordChange handleFinalPasswordReset
  by_cases hm : newPassword = confirmPassword
  · subst hm
    simp [h]
  · simp [hm, h]

/-- Witness for C6: a concrete short password with matching confirmation. -/
theorem short_password_rejected_witness :
    ("short" : String).length < 8 ∧
    (∃ m, handlePasswordChange "a@b.com" "cur" "short" "short" = .rejected m) ∧
    (∃ m, handleFinalPasswordReset "a@b.com" "short" "short" = .rejected m) ∧
    handlePasswordChange "a@b.com" "cur" "short" "short" =
      .rejected "Password must be at least 8 characters." ∧
    handleFinalPasswordReset "a@b.com" "short" "short" =
      .rejected "Password must be at least 8 characters long." := by
  have H := short_password_rejected "a@b.com" "cur" "short" "short" (by decide)
  exact ⟨by decide, H.1, H.2.1, H.2.2 rfl⟩

/-- Claim C7: a submission whose new password differs from the confirmation
is rejected with the respective mismatch message and no backend call is
made; the length error and the backend call can only arise when the two
fields are equal. -/
theorem password_mismatch_rejected
    (userEmail currentPassword newPassword confirmPassword : String) :
    (newPassword ≠ confirmPassword →
      handlePasswordChange userEmail currentPassword newPassword confirmPassword =
        .rejected "New passwords do not match." ∧
      handleFinalPasswordReset userEmail newPassword confirmPassword =
        .rejected "Passwords do not match.") ∧
    (∀ a, handlePasswordChange userEmail currentPassword newPassword confirmPassword =
      .callBackend a → newPassword = confirmPassword) ∧
    (handlePasswordChange userEmail currentPassword newPassword confirmPassword =
      .rejected "Password must be at least 8 characters." →
        newPassword = confirmPassword) ∧
    (∀ a, handleFinalPasswordReset userEmail newPassword confirmPassword =
      .callBackend a → newPassword = confirmPassword) ∧
    (handleFinalPasswordReset userEmail newPassword confirmPassword =
      .rejected "Password must be at least 8 characters long." →
        newPassword = confirmPassword) := by
  unfold handlePasswordChange handleFinalPasswordReset
  by_cases hm : newPassword = confirmPassword <;>
    by_cases hl : newPassword.length < 8 <;>
    simp [hm, hl]

/-- Witness for C7: a concrete mismatching submission, by applying the
theorem. -/
theorem password_mismatch_rejected_witness :
    handlePasswordChange "a@b.com" "cur" "abcdefgh" "different" =
      .rejected "New passwords do not match." :=
  ((password_mismatch_rejected "a@b.com" "cur" "abcdefgh" "different").1 (by decide)).1

/-- Claim C10: `changePassword` leaves the store unchanged whenever it
fails; it fails exactly when no stored user has the email or the first user
with that email has a different stored password; on success it rewrites
exactly the first matching user's password to the new one, leaving every
other entry and field unchanged (`List.set` of the updated record). -/
theorem changePassword_atomic (users : List User)
    (email currentPassword newPassword : String) :
    (∀ e, (changePassword users email currentPassword newPassword).1 = .failure e →
      (changePassword users email currentPassword newPassword).2 = users) ∧
    ((∃ e, (changePassword users email currentPassword newPassword).1 = .failure e) ↔
      (users.find? (fun u => u.email == email) = none ∨
        ∃ u, users.find? (fun u => u.email == email) = some u ∧
          u.password ≠ currentPassword)) ∧
    ((changePassword users email currentPassword newPassword).1 = .success () →
      ∃ i u, users[i]? = some u ∧ u.email = email ∧ u.password = currentPassword ∧
        (∀ j < i, ∀ v, users[j]? = some v → v.email ≠ email) ∧
        (changePassword users email currentPassword newPassword).2 =
          users.set i { u with password := newPassword }) := by
  induction users with
  | nil =>
    refine ⟨fun e _ => rfl, ?_, ?_⟩
    · simp [changePassword]
    · intro h
      simp [changePassword] at h
  | cons u rest ih =>
    by_cases hu : u.email = email
    · by_cases hpw : u.password = currentPassword
      · refine ⟨?_, ?_, ?_⟩
        · intro e he
          simp [changePassword, hu, hpw] at he
        · constructor
          · rintro ⟨e, he⟩
            simp [changePassword, hu, hpw] at he
          · rintro (hn | ⟨w, hw, hwp⟩)
            · simp [List.find?_cons, hu] at hn
            · simp [List.find?_cons, hu] at hw
              exact absurd (hw ▸ hpw) hwp
        · intro _
          refine ⟨0, u, by simp, hu, hpw, fun j hj => absurd hj (Nat.not_lt_zero j), ?_⟩
          simp [changePassword, hu, hpw]
      · refine ⟨?_, ?_, ?_⟩
        · intro e _
          simp [changePassword, hu, hpw]
        · constructor
          · intro _
            exact Or.inr ⟨u, by simp [List.find?_cons, hu], hpw⟩
          · intro _
            exact ⟨"Incorrect current password.", by simp [changePassword, hu, hpw]⟩
        · intro hs
          simp [changePassword, hu, hpw] at hs
    · have hstep :
          changePassword (u :: rest) email currentPassword newPassword =
            ((changePassword rest email currentPassword newPassword).1,
              u :: (changePassword rest email currentPassword newPassword).2) := by
        simp [changePassword, hu]
      refine ⟨?_, ?_, ?_⟩
      · intro e he
        rw [hstep] at he ⊢
        simp only at he ⊢
        rw [ih.1 e he]
      · rw [hstep]
        simp only [List.find?_cons, beq_iff_eq, hu, if_neg hu]
        have hpu : (u.email == email) = false := by
          simp [hu]
        rw [hpu]
        exact ih.2.1
      · intro hs
        rw [hstep] at hs
        simp only at hs
        rcases ih.2.2 hs with ⟨i, w, hw, hwe, hwp, hfirst, hset⟩
        refine ⟨i + 1, w, by simpa using hw, hwe, hwp, ?_, ?_⟩
        · intro j hj v hv
          cases j with
          | zero =>
            simp at hv
            rw [← hv]
            exact hu
          | succ j' =>
            simp at hv
            exact hfirst j' (Nat.lt_of_succ_lt_succ hj) v (by simpa using hv)
        · rw [hstep]
          simp only [List.set_cons_succ]
          rw [hset]

/-- Witness for C10: changing the password of an unknown email leaves the
initial store untouched, by applying the theorem. -/
theorem changePassword_atomic_witness :
    (changePassword initialUsers "ghost@app.com" "x" "y").2 = initialUsers :=
  (changePassword_atomic initialUsers "ghost@app.com" "x" "y").1
    "User not found." (by decide)

end SadakSathi
